import Mathlib

/-!
Shallow embedding of the read-only query layer in `src/app.py` (a FastAPI
service over a two-table relational dataset) together with proofs about the
behaviour of its endpoints.

Modelling conventions:
* `amount` columns are rationals (`ℚ`), matching exact decimal (`numeric`)
  arithmetic in the store; `ROUND(x::numeric, 2)` is round-half-away-from-zero
  to two decimal places.
* timestamps are integers (seconds); `DATE(created)` is the floor-division of
  the timestamp by 86400 and `NOW() - INTERVAL '1 day' * days` subtracts
  `days * 86400` from the current time.
* SQL `ORDER BY` is modelled by `List.insertionSort` with the declared key
  relation; `LIMIT l OFFSET s` is `List.drop s` followed by `List.take l`.
* an aggregate `SUM`/`AVG` over a group with no non-null values is `NULL`,
  modelled with `Option` where the query does not coalesce it away.
* endpoint results live in `Except HttpError _`; `HttpError.notFound` is a 404,
  `HttpError.serverError` a 5xx, and `HttpError.validationError` the 422 that
  FastAPI produces for an out-of-range query parameter before the handler runs.
-/

unseal Rat.add Rat.mul Rat.inv Rat.sub Rat.ofScientific

namespace Sandbox

instance {ε α : Type} [DecidableEq ε] [DecidableEq α] : DecidableEq (Except ε α) :=
  fun a b =>
    match a, b with
    | .ok x, .ok y =>
      match decEq x y with
      | isTrue h => isTrue (by rw [h])
      | isFalse h => isFalse fun hh => h (Except.ok.inj hh)
    | .error x, .error y =>
      match decEq x y with
      | isTrue h => isTrue (by rw [h])
      | isFalse h => isFalse fun hh => h (Except.error.inj hh)
    | .ok _, .error _ => isFalse fun hh => Except.noConfusion hh
    | .error _, .ok _ => isFalse fun hh => Except.noConfusion hh

/-- A row of the `users` table (`id`, `email`, timestamps). -/
structure User where
  id : Int
  email : String
  created : Int
  updated : Int
deriving Repr, DecidableEq

/-- A row of the `transactions` table. -/
structure Transaction where
  id : String
  user_id : Int
  amount : ℚ
  currency : String
  subid : String
  pending : Bool
  paid : Bool
  created : Int
  updated : Int
deriving Repr, DecidableEq

/-- The dataset visible to one request: both tables. -/
structure DB where
  users : List User
  txs : List Transaction
deriving Repr, DecidableEq

/-- Error outcomes an endpoint can signal. -/
inductive HttpError where
  | notFound
  | serverError
  | validationError
deriving Repr, DecidableEq

/-- Executable floor of a rational: floor-division of numerator by
denominator. -/
def ratFloor (q : ℚ) : Int :=
  q.num.fdiv q.den

/-- Round-half-away-from-zero to an integer, as Postgres `ROUND` on `numeric`. -/
def roundHalfAwayFromZero (q : ℚ) : Int :=
  if 0 ≤ q then ratFloor (q + 1 / 2) else -ratFloor (-q + 1 / 2)

/-- `ROUND(x::numeric, 2)`: round to two decimal places, half away from zero. -/
def round2 (q : ℚ) : ℚ :=
  (roundHalfAwayFromZero (q * 100) : ℚ) / 100

/-- `SUM(amount)` over a list of transactions (0 on the empty list). -/
def sumAmounts (ts : List Transaction) : ℚ :=
  (ts.map fun t => t.amount).sum

/-- `ORDER BY id` (ascending) on users. -/
def userIdLe (u v : User) : Prop := u.id ≤ v.id

instance : DecidableRel userIdLe := fun u v =>
  inferInstanceAs (Decidable (u.id ≤ v.id))

instance : IsTotal User userIdLe := ⟨fun u v => Int.le_total u.id v.id⟩

instance : IsTrans User userIdLe := ⟨fun _ _ _ h₁ h₂ => le_trans h₁ h₂⟩

/-- `ORDER BY created DESC` on transactions. -/
def createdDesc (t s : Transaction) : Prop := s.created ≤ t.created

instance : DecidableRel createdDesc := fun t s =>
  inferInstanceAs (Decidable (s.created ≤ t.created))

instance : IsTotal Transaction createdDesc := ⟨fun t s => Int.le_total s.created t.created⟩

instance : IsTrans Transaction createdDesc := ⟨fun _ _ _ h₁ h₂ => le_trans h₂ h₁⟩

/-- `GET /users`: `SELECT … FROM users ORDER BY id LIMIT :limit OFFSET :skip`. -/
def listUsers (db : DB) (skip limit : Nat) : List User :=
  ((db.users.insertionSort userIdLe).drop skip).take limit

/-- `GET /users/(user_id)`: single-user lookup, 404 when no row matches. -/
def getUser (db : DB) (uid : Int) : Except HttpError User :=
  match db.users.find? (fun u => u.id == uid) with
  | none => .error .notFound
  | some u => .ok u

/-- `GET /users/(user_id)/transactions`: the user's transactions ordered by
`created DESC`, bounded by `limit`; no existence check on the user. -/
def getUserTransactions (db : DB) (uid : Int) (limit : Nat) :
    Except HttpError (List Transaction) :=
  .ok (((db.txs.filter fun t => t.user_id == uid).insertionSort createdDesc).take limit)

/-- The `WHERE` clause of `GET /transactions`: each optional boolean filter
constrains only when supplied. -/
def optFilter (pending paid : Option Bool) (t : Transaction) : Bool :=
  (match pending with
   | none => true
   | some b => t.pending == b) &&
  (match paid with
   | none => true
   | some b => t.paid == b)

/-- `GET /transactions`: optional `pending`/`paid` filters ANDed together, then
`ORDER BY created DESC LIMIT :limit OFFSET :skip`. -/
def listTransactions (txs : List Transaction) (skip limit : Nat)
    (pending paid : Option Bool) : List Transaction :=
  (((txs.filter (optFilter pending paid)).insertionSort createdDesc).drop skip).take limit

/-- Result shape of `GET /transactions/summary`. -/
structure SummaryRow where
  total_amount : ℚ
  transaction_count : Nat
  average_amount : ℚ
  currency : String
deriving Repr, DecidableEq

/-- The distinct currencies of a transaction list, in order of first
appearance: the groups produced by `GROUP BY currency` (the store returns them
in an unspecified order; first appearance is the model's choice). -/
def currencies (txs : List Transaction) : List String :=
  txs.foldl (fun acc t => if t.currency ∈ acc then acc else acc ++ [t.currency]) []

/-- `GET /transactions/summary`: aggregates grouped by currency, `LIMIT 1`, and
a 500 error when the query yields no row (which happens exactly when the table
is empty, since `GROUP BY` over an empty set produces no groups). Inside a
group the `COALESCE(…, 0)` calls are no-ops because every group is non-empty. -/
def transactionSummary (txs : List Transaction) : Except HttpError SummaryRow :=
  match currencies txs with
  | [] => .error .serverError
  | c :: _ =>
    let g := txs.filter fun t => t.currency == c
    .ok { total_amount := sumAmounts g
          transaction_count := g.length
          average_amount := round2 (sumAmounts g / (g.length : ℚ))
          currency := c }

/-- Result shape of `GET /transactions/user/(user_id)/stats`. -/
structure StatsRow where
  user_id : Int
  email : String
  total_amount : ℚ
  transaction_count : Nat
  average_amount : ℚ
  pending_count : Nat
  paid_count : Nat
deriving Repr, DecidableEq

/-- `GET /transactions/user/(user_id)/stats`: `users LEFT JOIN transactions`
restricted to `u.id = user_id`, grouped per user. A matching user with no
transactions produces one all-`NULL` joined row, so `COUNT(t.id) = 0`, the
coalesced sums are `0`, and the `CASE WHEN` conditional counts are `0`; no
matching user produces zero rows, reported as 404. -/
def userStats (db : DB) (uid : Int) : Except HttpError StatsRow :=
  match db.users.find? (fun u => u.id == uid) with
  | none => .error .notFound
  | some u =>
    let ts := db.txs.filter fun t => t.user_id == u.id
    .ok { user_id := uid
          email := u.email
          total_amount := sumAmounts ts
          transaction_count := ts.length
          average_amount := round2 (if ts.length = 0 then 0 else sumAmounts ts / (ts.length : ℚ))
          pending_count := (ts.filter fun t => t.pending).length
          paid_count := (ts.filter fun t => t.paid).length }

/-- Result shape of `GET /transactions/daily`. -/
structure DailyRow where
  date : Int
  transaction_count : Nat
  total_amount : ℚ
deriving Repr, DecidableEq

/-- `ORDER BY date DESC` on day numbers. -/
def dateDesc (a b : Int) : Prop := b ≤ a

instance : DecidableRel dateDesc := fun a b =>
  inferInstanceAs (Decidable (b ≤ a))

instance : IsTotal Int dateDesc := ⟨fun a b => Int.le_total b a⟩

instance : IsTrans Int dateDesc := ⟨fun _ _ _ h₁ h₂ => le_trans h₂ h₁⟩

/-- `GET /transactions/daily`: transactions of the trailing `days`-day window
grouped by calendar day (`DATE(created)`), newest day first. -/
def dailySummary (txs : List Transaction) (now : Int) (days : Nat) : List DailyRow :=
  let recent := txs.filter fun t => now - (days : Int) * 86400 ≤ t.created
  let dates := ((recent.map fun t => t.created.fdiv 86400).dedup).insertionSort dateDesc
  dates.map fun d =>
    let g := recent.filter fun t => t.created.fdiv 86400 == d
    { date := d, transaction_count := g.length, total_amount := round2 (sumAmounts g) }

/-- `GET /transactions/pending`: transactions with `pending = true`, newest
first, bounded by `limit`. -/
def pendingTransactions (txs : List Transaction) (limit : Nat) : List Transaction :=
  ((txs.filter fun t => t.pending).insertionSort createdDesc).take limit

/-- `GET /transactions/unpaid`: transactions with
`pending = false AND paid = false`, newest first, bounded by `limit`. -/
def unpaidTransactions (txs : List Transaction) (limit : Nat) : List Transaction :=
  ((txs.filter fun t => !t.pending && !t.paid).insertionSort createdDesc).take limit

/-- One row of the `GET /reports/top-users` query. `SUM(t.amount)` is not
coalesced: for a user whose `LEFT JOIN` group holds only `NULL` transaction
columns the sum — and hence `total_amount` — is `NULL` (`none`). -/
structure TopRow where
  user_id : Int
  email : String
  total_amount : Option ℚ
  transaction_count : Nat
deriving Repr, DecidableEq

/-- Descending order on nullable totals with the store's default `NULLS FIRST`
for `DESC`: `NULL` sorts before every non-null value. -/
def nullsFirstGe (x y : Option ℚ) : Prop :=
  match x, y with
  | none, _ => True
  | some _, none => False
  | some a, some b => b ≤ a

instance : DecidableRel nullsFirstGe := fun x y =>
  match x, y with
  | none, _ => isTrue trivial
  | some _, none => isFalse fun h => h
  | some a, some b => inferInstanceAs (Decidable (b ≤ a))

/-- `ORDER BY total_amount DESC` (`NULLS FIRST`) on top-users rows. -/
def totalDesc (a b : TopRow) : Prop :=
  nullsFirstGe a.total_amount b.total_amount

instance : DecidableRel totalDesc := fun a b =>
  inferInstanceAs (Decidable (nullsFirstGe a.total_amount b.total_amount))

instance : IsTotal TopRow totalDesc :=
  ⟨fun a b => by
    unfold totalDesc nullsFirstGe
    rcases a.total_amount with _ | x <;> rcases b.total_amount with _ | y
    · simp
    · simp
    · simp
    · simpa using le_total y x⟩

instance : IsTrans TopRow totalDesc :=
  ⟨fun a b c h₁ h₂ => by
    unfold totalDesc nullsFirstGe at h₁ h₂ ⊢
    rcases ha : a.total_amount with _ | x <;> rcases hb : b.total_amount with _ | y <;>
      rcases hc : c.total_amount with _ | z <;> simp_all
    exact h₂.trans h₁⟩

/-- The per-user aggregate rows of `GET /reports/top-users`, one per user via
the `LEFT JOIN` and `GROUP BY u.id, u.email`, before ordering. -/
def topUsersRows (db : DB) : List TopRow :=
  db.users.map fun u =>
    let ts := db.txs.filter fun t => t.user_id == u.id
    { user_id := u.id
      email := u.email
      total_amount := if ts.length = 0 then none else some (round2 (sumAmounts ts))
      transaction_count := ts.length }

/-- `GET /reports/top-users`: aggregate rows ordered by `total_amount DESC`
(`NULLS FIRST`), bounded by `limit`. -/
def topUsers (db : DB) (limit : Nat) : List TopRow :=
  ((topUsersRows db).insertionSort totalDesc).take limit

/-- The declared `TopUser` response shape: `total_amount` is a non-nullable
float. -/
structure TopUserResp where
  user_id : Int
  email : String
  total_amount : ℚ
  transaction_count : Nat
deriving Repr, DecidableEq

/-- Response-model validation of one top-users row: a `NULL` `total_amount`
cannot inhabit the declared non-nullable float field, so serialization fails
with a server error. -/
def validateTopRow (r : TopRow) : Except HttpError TopUserResp :=
  match r.total_amount with
  | none => .error .serverError
  | some a =>
    .ok { user_id := r.user_id, email := r.email, total_amount := a
          transaction_count := r.transaction_count }

/-- Result shape of `GET /reports/suspicious-transactions`. -/
structure SuspiciousRow where
  id : String
  user_id : Int
  amount : ℚ
  reason : String
  created : Int
deriving Repr, DecidableEq

/-- `ORDER BY amount DESC` on suspicious rows. -/
def suspAmountDesc (a b : SuspiciousRow) : Prop := b.amount ≤ a.amount

instance : DecidableRel suspAmountDesc := fun a b =>
  inferInstanceAs (Decidable (b.amount ≤ a.amount))

instance : IsTotal SuspiciousRow suspAmountDesc := ⟨fun a b => le_total b.amount a.amount⟩

instance : IsTrans SuspiciousRow suspAmountDesc := ⟨fun _ _ _ h₁ h₂ => le_trans h₂ h₁⟩

/-- `PERCENTILE_CONT(0.9) WITHIN GROUP (ORDER BY amount)`: continuous
interpolation over the ordered amounts; `NULL` (`none`) on an empty set. -/
def percentile90 (txs : List Transaction) : Option ℚ :=
  let as := (txs.map fun t => t.amount).insertionSort (· ≤ ·)
  if as.length = 0 then none
  else
    let h : ℚ := (9 : ℚ) / 10 * ((as.length : ℚ) - 1)
    let i : Nat := (ratFloor h).toNat
    let lo := as.getD i 0
    let hi := as.getD (i + 1) 0
    some (lo + (h - (i : ℚ)) * (hi - lo))

/-- Projection of a transaction into a suspicious-transactions row, with the
fixed reason string from the query. -/
def toSuspicious (t : Transaction) : SuspiciousRow :=
  { id := t.id, user_id := t.user_id, amount := t.amount
    reason := "Large transaction (>90th percentile)", created := t.created }

/-- `GET /reports/suspicious-transactions`: transactions whose amount strictly
exceeds the 90th percentile of all amounts (recomputed per call), ordered by
amount descending, bounded by `limit`. On an empty table the percentile
subquery is `NULL` and the comparison excludes every row. -/
def suspiciousTransactions (txs : List Transaction) (limit : Nat) : List SuspiciousRow :=
  match percentile90 txs with
  | none => []
  | some p =>
    (((txs.filter fun t => p < t.amount).map toSuspicious).insertionSort suspAmountDesc).take limit

/-- `GET /users` with raw (client-supplied) parameters: FastAPI enforces the
declared bounds `skip ≥ 0`, `1 ≤ limit ≤ 100` before the handler runs. -/
def listUsersEndpoint (db : DB) (skip limit : Int) : Except HttpError (List User) :=
  if 0 ≤ skip ∧ 1 ≤ limit ∧ limit ≤ 100 then .ok (listUsers db skip.toNat limit.toNat)
  else .error .validationError

/-- `GET /transactions` with raw parameters: declared bounds `skip ≥ 0`,
`1 ≤ limit ≤ 500`. -/
def listTransactionsEndpoint (db : DB) (skip limit : Int) (pending paid : Option Bool) :
    Except HttpError (List Transaction) :=
  if 0 ≤ skip ∧ 1 ≤ limit ∧ limit ≤ 500 then
    .ok (listTransactions db.txs skip.toNat limit.toNat pending paid)
  else .error .validationError

/-- `GET /transactions/daily` with raw parameters: declared bounds
`1 ≤ days ≤ 365`. -/
def dailyEndpoint (db : DB) (now : Int) (days : Int) : Except HttpError (List DailyRow) :=
  if 1 ≤ days ∧ days ≤ 365 then .ok (dailySummary db.txs now days.toNat)
  else .error .validationError

/-- `GET /reports/top-users` with raw parameters: declared bounds
`1 ≤ limit ≤ 100`, then the query followed by response-model validation of
every row. -/
def topUsersEndpoint (db : DB) (limit : Int) : Except HttpError (List TopUserResp) :=
  if 1 ≤ limit ∧ limit ≤ 100 then (topUsers db limit.toNat).mapM validateTopRow
  else .error .validationError

/-- Declared default for the `limit` query parameter of `GET /users`. -/
def usersLimitDefault : Int := 10

/-- Declared default for the `limit` parameter of the transaction listings. -/
def txLimitDefault : Int := 50

/-- Declared default for the `limit` parameter of `GET /reports/top-users`. -/
def topUsersLimitDefault : Int := 10

/-- Declared default for the `days` parameter of `GET /transactions/daily`. -/
def daysDefault : Int := 7

/-- Declared default for the `skip` parameter of the listings. -/
def skipDefault : Int := 0

/-- Shorthand transaction constructor for concrete datasets. -/
def mkTx (i : String) (uid : Int) (amt : ℚ) (p q : Bool) (cr : Int) : Transaction :=
  { id := i, user_id := uid, amount := amt, currency := "USD", subid := "s",
    pending := p, paid := q, created := cr, updated := cr }

/-- Shorthand user constructor for concrete datasets. -/
def mkUser (i : Int) (e : String) : User :=
  { id := i, email := e, created := 0, updated := 0 }

/-- A pending, unpaid transaction: must appear in `pending` listings, never in
the `unpaid` listing. -/
def pendingUnpaidTx : Transaction := mkTx "p1" 1 10 true false 5

/-- A confirmed (non-pending) unpaid transaction. -/
def confirmedUnpaidTx : Transaction := mkTx "c1" 1 20 false false 3

/-- A transaction whose `user_id` references no row of the users table. -/
def orphanTx : Transaction := mkTx "t1" 7 12 false false 0

/-- A dataset with a dangling transaction and no users at all. -/
def orphanDb : DB := { users := [], txs := [orphanTx] }

/-- Dataset for the per-user stats claims: user 1 owns the only transaction,
user 42 exists with no transactions. -/
def statsDb : DB :=
  { users := [mkUser 1 "a@x", mkUser 42 "b@x"], txs := [mkTx "t1" 1 9 true true 0] }

/-- The spec's worked example: user 7 with two transactions of 100.005 and
50.00. -/
def statsExampleDb : DB :=
  { users := [mkUser 7 "u7@x"],
    txs := [mkTx "t1" 7 100.005 false false 1, mkTx "t2" 7 50 false false 0] }

/-- Three transactions with amounts 1, 2, 3: their 90th percentile
(continuous) is 2.8, so only the amount-3 transaction is suspicious. -/
def suspTxA : Transaction := mkTx "a" 1 1 false false 0

/-- Second of the three percentile-sample transactions. -/
def suspTxB : Transaction := mkTx "b" 1 2 false false 1

/-- Third of the three percentile-sample transactions (the outlier). -/
def suspTxC : Transaction := mkTx "c" 1 3 false false 2

/-- Dataset exhibiting the top-users `NULL` total: user 1 has no transactions,
user 2 has one of amount 5. -/
def topBugDb : DB :=
  { users := [mkUser 1 "a@x", mkUser 2 "b@x"], txs := [mkTx "t1" 2 5 false false 0] }

/-- `ratFloor` agrees with the mathematical floor. -/
theorem ratFloor_eq_floor (q : ℚ) : ratFloor q = ⌊q⌋ := by
  rw [ratFloor, Rat.floor_def]
  exact Int.fdiv_eq_ediv q.num (by exact_mod_cast Nat.zero_le q.den)

/-- An element of an ordered, truncated listing comes from the underlying
list. -/
theorem mem_of_mem_sortTake {α : Type} (r : α → α → Prop) [DecidableRel r]
    {l : List α} {n : Nat} {x : α} (hx : x ∈ (l.insertionSort r).take n) : x ∈ l :=
  (List.mem_insertionSort r).mp (List.take_subset n _ hx)

/-- An element of an ordered, offset-and-truncated listing comes from the
underlying list. -/
theorem mem_of_mem_sortDropTake {α : Type} (r : α → α → Prop) [DecidableRel r]
    {l : List α} {s n : Nat} {x : α} (hx : x ∈ ((l.insertionSort r).drop s).take n) :
    x ∈ l :=
  (List.mem_insertionSort r).mp (List.drop_subset s _ (List.take_subset n _ hx))

/-- When the whole list fits under the limit, every element survives the
ordering and truncation. -/
theorem mem_sortTake_of_le {α : Type} (r : α → α → Prop) [DecidableRel r]
    {l : List α} {n : Nat} (h : l.length ≤ n) {x : α} (hx : x ∈ l) :
    x ∈ (l.insertionSort r).take n := by
  rw [List.take_of_length_le (by simpa using h)]
  simpa using hx

/-- An ordered, truncated listing is sorted by the ordering relation. -/
theorem sorted_sortTake {α : Type} (r : α → α → Prop) [DecidableRel r]
    [IsTotal α r] [IsTrans α r] (l : List α) (n : Nat) :
    List.Sorted r ((l.insertionSort r).take n) :=
  (List.sorted_insertionSort r l).sublist (List.take_sublist n _)

/-- An ordered, offset-and-truncated listing is sorted by the ordering
relation. -/
theorem sorted_sortDropTake {α : Type} (r : α → α → Prop) [DecidableRel r]
    [IsTotal α r] [IsTrans α r] (l : List α) (s n : Nat) :
    List.Sorted r (((l.insertionSort r).drop s).take n) :=
  (List.sorted_insertionSort r l).sublist
    ((List.take_sublist n _).trans (List.drop_sublist s _))

/-- C6: the unpaid listing returns exactly the transactions with
`pending = false AND paid = false`: every returned row satisfies both flags
(in particular a `pending = true, paid = false` row never appears), and every
such transaction is returned whenever the matching set fits within `limit`. -/
theorem unpaid_listing_exact (txs : List Transaction) (limit : Nat) :
    (∀ t ∈ unpaidTransactions txs limit, t.pending = false ∧ t.paid = false) ∧
    (∀ t ∈ txs, t.pending = true → t ∉ unpaidTransactions txs limit) ∧
    ((txs.filter fun t => !t.pending && !t.paid).length ≤ limit →
      ∀ t ∈ txs, t.pending = false → t.paid = false → t ∈ unpaidTransactions txs limit) := by
  refine ⟨?_, ?_, ?_⟩
  · intro t ht
    have h1 : t ∈ txs.filter fun t => !t.pending && !t.paid :=
      mem_of_mem_sortTake createdDesc ht
    have h2 := List.of_mem_filter h1
    simp only [Bool.and_eq_true, Bool.not_eq_true'] at h2
    exact h2
  · intro t _ hp hmem
    have h1 : t ∈ txs.filter fun t => !t.pending && !t.paid :=
      mem_of_mem_sortTake createdDesc hmem
    have h2 := List.of_mem_filter h1
    simp [hp] at h2
  · intro hlen t ht hp hq
    exact mem_sortTake_of_le createdDesc hlen (List.mem_filter.mpr ⟨ht, by simp [hp, hq]⟩)

/-- C6 witness: on a concrete dataset the confirmed unpaid transaction is
returned and the pending unpaid one is not. -/
theorem unpaid_listing_exact_witness :
    confirmedUnpaidTx ∈ unpaidTransactions [pendingUnpaidTx, confirmedUnpaidTx] 50 ∧
    pendingUnpaidTx ∉ unpaidTransactions [pendingUnpaidTx, confirmedUnpaidTx] 50 :=
  ⟨(unpaid_listing_exact [pendingUnpaidTx, confirmedUnpaidTx] 50).2.2 (by decide)
      confirmedUnpaidTx (by decide) rfl rfl,
    (unpaid_listing_exact [pendingUnpaidTx, confirmedUnpaidTx] 50).2.1 pendingUnpaidTx
      (by decide) rfl⟩

/-- C7: in the filtered transaction listing, supplying `pending = true` and
`paid = true` returns only rows satisfying both; omitting both filters applies
no constraint, so the listing is the ordered, paginated full set and (when it
fits within `limit`) every transaction — whatever its flags — appears. -/
theorem filters_optional_and_combined (txs : List Transaction) (skip limit : Nat) :
    (∀ t ∈ listTransactions txs skip limit (some true) (some true),
      t.pending = true ∧ t.paid = true) ∧
    (listTransactions txs skip limit none none =
      ((txs.insertionSort createdDesc).drop skip).take limit) ∧
    (txs.length ≤ limit → ∀ t ∈ txs, t ∈ listTransactions txs 0 limit none none) := by
  have hall : ∀ ts : List Transaction, ts.filter (optFilter none none) = ts := by
    intro ts
    simp [optFilter]
  refine ⟨?_, ?_, ?_⟩
  · intro t ht
    have h1 : t ∈ txs.filter (optFilter (some true) (some true)) :=
      mem_of_mem_sortDropTake createdDesc ht
    have h2 := List.of_mem_filter h1
    simp only [optFilter, Bool.and_eq_true, beq_iff_eq] at h2
    exact h2
  · unfold listTransactions
    rw [hall]
  · intro hlen t ht
    have heq : listTransactions txs 0 limit none none =
        (txs.insertionSort createdDesc).take limit := by
      unfold listTransactions
      rw [hall, List.drop_zero]
    rw [heq]
    exact mem_sortTake_of_le createdDesc hlen ht

/-- C7 witness: with both filters omitted, a pending and a non-pending
transaction both appear: omission places no constraint on either flag. -/
theorem filters_optional_and_combined_witness :
    pendingUnpaidTx ∈ listTransactions [pendingUnpaidTx, confirmedUnpaidTx] 0 50 none none ∧
    confirmedUnpaidTx ∈ listTransactions [pendingUnpaidTx, confirmedUnpaidTx] 0 50 none none :=
  ⟨(filters_optional_and_combined [pendingUnpaidTx, confirmedUnpaidTx] 0 50).2.2 (by decide)
      pendingUnpaidTx (by decide),
    (filters_optional_and_combined [pendingUnpaidTx, confirmedUnpaidTx] 0 50).2.2 (by decide)
      confirmedUnpaidTx (by decide)⟩

/-- C8: every listing returns at most `limit` rows, sorted by its declared
stable key (`id` ascending for users, `created` descending for transactions),
and the page at offset `skip` is exactly the first `skip + limit` rows of the
same ordering with the first `skip` dropped: bounding is applied after
ordering, and identical inputs give identical ordered results (the listing is
a pure function of the dataset). -/
theorem listings_pagination_stable (db : DB) (skip limit : Nat) :
    (listUsers db skip limit).length ≤ limit ∧
    List.Sorted userIdLe (listUsers db skip limit) ∧
    listUsers db skip limit = (listUsers db 0 (skip + limit)).drop skip ∧
    (listTransactions db.txs skip limit none none).length ≤ limit ∧
    List.Sorted createdDesc (listTransactions db.txs skip limit none none) ∧
    listTransactions db.txs skip limit none none =
      (listTransactions db.txs 0 (skip + limit) none none).drop skip := by
  refine ⟨?_, ?_, ?_, ?_, ?_, ?_⟩
  · exact List.length_take_le limit _
  · exact sorted_sortDropTake userIdLe db.users skip limit
  · unfold listUsers
    rw [List.drop_zero, List.drop_take, Nat.add_sub_cancel_left]
  · exact List.length_take_le limit _
  · exact sorted_sortDropTake createdDesc (db.txs.filter (optFilter none none)) skip limit
  · unfold listTransactions
    rw [List.drop_zero, List.drop_take, Nat.add_sub_cancel_left]

/-- C10 counterexample: user id 7 matches no user row, yet the per-user
transactions listing is not the empty list — it returns the dangling
transaction bearing that id. -/
theorem user_transactions_nonexistent_counterexample :
    orphanDb.users = [] ∧
    getUserTransactions orphanDb 7 50 = .ok [orphanTx] ∧
    getUserTransactions orphanDb 7 50 ≠ .ok [] := by
  refine ⟨rfl, by decide, by decide⟩

/-- C10 amended: the per-user transactions listing never checks user
existence: it always succeeds (never Not-Found), returns exactly the
transactions bearing the requested `user_id` — the empty list when no
transaction references the id — and its result is independent of the users
table, so a nonexistent user id is indistinguishable from an existing user
with the same (possibly zero) transactions. -/
theorem user_transactions_no_user_check (db : DB) (uid : Int) (limit : Nat) :
    (∃ l, getUserTransactions db uid limit = .ok l) ∧
    ((∀ t ∈ db.txs, t.user_id ≠ uid) → getUserTransactions db uid limit = .ok []) ∧
    (∀ us us', getUserTransactions ⟨us, db.txs⟩ uid limit =
      getUserTransactions ⟨us', db.txs⟩ uid limit) := by
  refine ⟨⟨_, rfl⟩, ?_, fun _ _ => rfl⟩
  intro hno
  unfold getUserTransactions
  have hnil : db.txs.filter (fun t => t.user_id == uid) = [] := by
    rw [List.filter_eq_nil_iff]
    intro t ht
    simpa using hno t ht
  rw [hnil]
  simp

/-- C10 witness: a dataset whose only transaction belongs to user 1 yields the
empty (but successful) listing for the nonexistent user id 9. -/
theorem user_transactions_no_user_check_witness :
    getUserTransactions { users := [mkUser 1 "a"], txs := [mkTx "t1" 1 4 false false 0] } 9 50 =
      .ok [] :=
  (user_transactions_no_user_check
    { users := [mkUser 1 "a"], txs := [mkTx "t1" 1 4 false false 0] } 9 50).2.1 (by decide)

/-- C4: per-user stats returns, for an existing user with zero transactions,
one row whose count and aggregates are all zero (the LEFT join keeps the
user), and returns Not-Found for a user id matching no user row. -/
theorem user_stats_zero_row_or_not_found (db : DB) (uid : Int) :
    ((∀ u ∈ db.users, u.id ≠ uid) → userStats db uid = .error .notFound) ∧
    (∀ u ∈ db.users, u.id = uid → (∀ t ∈ db.txs, t.user_id ≠ uid) →
      ∃ row, userStats db uid = .ok row ∧ row.transaction_count = 0 ∧
        row.total_amount = 0 ∧ row.pending_count = 0 ∧ row.paid_count = 0) := by
  constructor
  · intro hno
    have hfind : db.users.find? (fun u => u.id == uid) = none := by
      rw [List.find?_eq_none]
      intro u hu
      simpa using hno u hu
    unfold userStats
    rw [hfind]
  · intro u hu huid hnotx
    obtain ⟨v, hvfind⟩ : ∃ v, db.users.find? (fun w => w.id == uid) = some v := by
      have hsome : (db.users.find? (fun w => w.id == uid)).isSome := by
        rw [List.find?_isSome]
        exact ⟨u, hu, by simp [huid]⟩
      exact Option.isSome_iff_exists.mp hsome
    have hvid : v.id = uid := by simpa using List.find?_some hvfind
    have hts : db.txs.filter (fun t => t.user_id == v.id) = [] := by
      rw [List.filter_eq_nil_iff]
      intro t ht
      simp only [beq_iff_eq, hvid]
      exact hnotx t ht
    have hzero : round2 0 = 0 := by decide
    refine ⟨{ user_id := uid, email := v.email, total_amount := 0, transaction_count := 0,
              average_amount := 0, pending_count := 0, paid_count := 0 },
            ?_, rfl, rfl, rfl, rfl⟩
    unfold userStats
    rw [hvfind]
    simp [hts, sumAmounts, hzero]

/-- C4 witness: on the concrete dataset, user 42 (present, no transactions)
gets the all-zero row and user id 9 (absent) gets Not-Found. -/
theorem user_stats_zero_row_or_not_found_witness :
    (∃ row, userStats statsDb 42 = .ok row ∧ row.transaction_count = 0 ∧
      row.total_amount = 0 ∧ row.pending_count = 0 ∧ row.paid_count = 0) ∧
    userStats statsDb 9 = .error .notFound :=
  ⟨(user_stats_zero_row_or_not_found statsDb 42).2 (mkUser 42 "b@x") (by decide) rfl
      (by decide),
    (user_stats_zero_row_or_not_found statsDb 9).1 (by decide)⟩

/-- The currency-accumulating fold never empties a non-empty accumulator. -/
theorem currencies_foldl_ne_nil (txs : List Transaction) (acc : List String)
    (h : acc ≠ []) :
    txs.foldl (fun acc t => if t.currency ∈ acc then acc else acc ++ [t.currency]) acc ≠ [] := by
  induction txs generalizing acc with
  | nil => simpa using h
  | cons s rest ih =>
    simp only [List.foldl_cons]
    apply ih
    by_cases hm : s.currency ∈ acc
    · simpa [hm] using h
    · simp [hm]

/-- A non-empty transaction list has at least one currency group. -/
theorem currencies_cons_ne_nil (t : Transaction) (rest : List Transaction) :
    currencies (t :: rest) ≠ [] := by
  unfold currencies
  simp only [List.foldl_cons]
  apply currencies_foldl_ne_nil
  simp

/-- C2 counterexample: on an empty transactions table the summary operation
does not return a zero-valued row — `GROUP BY currency` yields no groups and
the endpoint raises a server error (HTTP 500, "Failed to fetch summary"). -/
theorem summary_empty_table_counterexample :
    transactionSummary [] = .error .serverError := by decide

/-- C2 amended: the `COALESCE` null-safe summation only acts inside a
(necessarily non-empty) currency group; with zero transactions the grouped
query returns zero rows and the operation signals a server error, while any
non-empty table produces exactly one `.ok` summary row (the first currency
group). The zero-row outcome happens exactly on the empty table. -/
theorem summary_errors_iff_empty (txs : List Transaction) :
    (txs = [] → transactionSummary txs = .error .serverError) ∧
    (txs ≠ [] → ∃ row, transactionSummary txs = .ok row) := by
  constructor
  · rintro rfl
    rfl
  · intro hne
    match txs, hne with
    | t :: rest, _ =>
      cases hc : currencies (t :: rest) with
      | nil => exact absurd hc (currencies_cons_ne_nil t rest)
      | cons c cs =>
        exact ⟨_, by unfold transactionSummary; rw [hc]⟩

/-- C2 witness: the empty table errors; a one-transaction table yields a
summary row. -/
theorem summary_errors_iff_empty_witness :
    transactionSummary [] = .error .serverError ∧
    (∃ row, transactionSummary [confirmedUnpaidTx] = .ok row) :=
  ⟨(summary_errors_iff_empty []).1 rfl,
    (summary_errors_iff_empty [confirmedUnpaidTx]).2 (by decide)⟩

/-- C3 counterexample: for user 7 with transactions of 100.005 and 50.00 the
per-user stats return `average_amount = 75.00` as claimed, but
`total_amount = 150.005` — the sum is returned unrounded, not as 150.01. -/
theorem stats_example_total_unrounded_counterexample :
    userStats statsExampleDb 7 =
      .ok { user_id := 7, email := "u7@x", total_amount := 150.005,
            transaction_count := 2, average_amount := 75,
            pending_count := 0, paid_count := 0 } ∧
    (150.005 : ℚ) ≠ 150.01 := by decide

/-- C3 amended: every `average_amount` returned by the aggregate operations is
rounded to 2 decimal places (it is an integer number of hundredths), and on
the worked example the per-user stats return `average_amount = 75.00` together
with the unrounded `total_amount = 150.005` (per-user totals are not
rounded). -/
theorem averages_rounded_to_cents (db : DB) (uid : Int) (txs : List Transaction) :
    (∀ row, userStats db uid = .ok row → ∃ k : Int, row.average_amount = (k : ℚ) / 100) ∧
    (∀ row, transactionSummary txs = .ok row → ∃ k : Int, row.average_amount = (k : ℚ) / 100) ∧
    (∀ row, userStats statsExampleDb 7 = .ok row →
      row.average_amount = 75 ∧ row.total_amount = 150.005) := by
  refine ⟨?_, ?_, ?_⟩
  · intro row h
    unfold userStats at h
    cases hfind : db.users.find? (fun u => u.id == uid) with
    | none =>
      rw [hfind] at h
      simp at h
    | some u =>
      rw [hfind] at h
      simp only [Except.ok.injEq] at h
      subst h
      exact ⟨_, rfl⟩
  · intro row h
    unfold transactionSummary at h
    cases hcur : currencies txs with
    | nil =>
      rw [hcur] at h
      simp at h
    | cons c cs =>
      rw [hcur] at h
      simp only [Except.ok.injEq] at h
      subst h
      exact ⟨_, rfl⟩
  · intro row h
    have heq : userStats statsExampleDb 7 =
        .ok { user_id := 7, email := "u7@x", total_amount := 150.005,
              transaction_count := 2, average_amount := 75,
              pending_count := 0, paid_count := 0 } := by decide
    rw [heq] at h
    simp only [Except.ok.injEq] at h
    subst h
    exact ⟨rfl, rfl⟩

/-- C3 witness: on the worked example the returned average is an exact number
of hundredths, namely 75.00, alongside the unrounded total. -/
theorem averages_rounded_to_cents_witness :
    (∃ k : Int, (75 : ℚ) = (k : ℚ) / 100) ∧
    ((75 : ℚ) = 75 ∧ (150.005 : ℚ) = 150.005) :=
  ⟨by
    have h := (averages_rounded_to_cents statsExampleDb 7 []).1
      { user_id := 7, email := "u7@x", total_amount := 150.005,
        transaction_count := 2, average_amount := 75,
        pending_count := 0, paid_count := 0 } (by decide)
    simpa using h,
   by
    have h := (averages_rounded_to_cents statsExampleDb 7 []).2.2
      { user_id := 7, email := "u7@x", total_amount := 150.005,
        transaction_count := 2, average_amount := 75,
        pending_count := 0, paid_count := 0 } (by decide)
    exact h⟩

/-- C5: every row returned by the suspicious-transactions report carries the
fixed reason string and an amount strictly above the 90th percentile of the
full dataset recomputed at query time (so no returned row is at or below it);
the result is ordered by descending amount; and every qualifying transaction
is returned whenever the qualifying set fits within `limit`. -/
theorem suspicious_strictly_above_p90 (txs : List Transaction) (limit : Nat) :
    (∀ r ∈ suspiciousTransactions txs limit,
      r.reason = "Large transaction (>90th percentile)" ∧
      ∀ p, percentile90 txs = some p → p < r.amount) ∧
    List.Sorted suspAmountDesc (suspiciousTransactions txs limit) ∧
    (∀ p, percentile90 txs = some p →
      (txs.filter fun t => p < t.amount).length ≤ limit →
      ∀ t ∈ txs, p < t.amount → toSuspicious t ∈ suspiciousTransactions txs limit) := by
  refine ⟨?_, ?_, ?_⟩
  · intro r hr
    unfold suspiciousTransactions at hr
    cases hp : percentile90 txs with
    | none =>
      rw [hp] at hr
      simp at hr
    | some p =>
      rw [hp] at hr
      have h1 : r ∈ (txs.filter fun t => p < t.amount).map toSuspicious :=
        mem_of_mem_sortTake suspAmountDesc hr
      obtain ⟨t, htf, rfl⟩ := List.mem_map.mp h1
      refine ⟨rfl, ?_⟩
      intro p' hp'
      injection hp' with hpp
      subst hpp
      have h2 := List.of_mem_filter htf
      exact of_decide_eq_true h2
  · unfold suspiciousTransactions
    cases hp : percentile90 txs with
    | none => simp
    | some p => exact sorted_sortTake suspAmountDesc _ limit
  · intro p hp hlen t ht hlt
    unfold suspiciousTransactions
    rw [hp]
    apply mem_sortTake_of_le suspAmountDesc
    · rw [List.length_map]
      exact hlen
    · exact List.mem_map_of_mem toSuspicious
        (List.mem_filter.mpr ⟨ht, decide_eq_true hlt⟩)

/-- C5 witness: with amounts 1, 2, 3 the 90th percentile is 2.8; the amount-3
transaction qualifies and is returned. -/
theorem suspicious_strictly_above_p90_witness :
    toSuspicious suspTxC ∈ suspiciousTransactions [suspTxA, suspTxB, suspTxC] 2 :=
  (suspicious_strictly_above_p90 [suspTxA, suspTxB, suspTxC] 2).2.2 (14 / 5)
    (by decide) (by decide) suspTxC (by decide) (by decide)

/-- C1 (bug exhibit): on a dataset where user 1 has no transactions and user 2
has a single transaction of 5, the top-users query gives user 1 a `NULL`
total (`SUM` over the all-`NULL` joined group is not coalesced) and ranks
user 1 strictly above the positive-total user 2, because descending order
puts `NULL` first; the declared non-nullable response model then rejects the
row, so the endpoint fails with a server error. -/
theorem top_users_null_total_ranked_first :
    topUsers topBugDb 10 =
      [{ user_id := 1, email := "a@x", total_amount := none, transaction_count := 0 },
       { user_id := 2, email := "b@x", total_amount := some 5, transaction_count := 1 }] ∧
    topUsersEndpoint topBugDb 10 = .error .serverError := by decide

/-- C9: each raw numeric parameter is bounded to its declared inclusive range
(users `skip ≥ 0`, `1 ≤ limit ≤ 100`; transaction listings `1 ≤ limit ≤ 500`;
top-users `1 ≤ limit ≤ 100`; day windows `1 ≤ days ≤ 365`); any out-of-range
value yields the validation error and the outcome is independent of the
dataset — no query result is ever consulted — while in-range values reach the
query; every declared default lies in its range. -/
theorem raw_params_validated (db dbAlt : DB) (now skip limit days : Int) :
    (¬(0 ≤ skip ∧ 1 ≤ limit ∧ limit ≤ 100) →
      listUsersEndpoint db skip limit = .error .validationError ∧
      listUsersEndpoint db skip limit = listUsersEndpoint dbAlt skip limit) ∧
    ((0 ≤ skip ∧ 1 ≤ limit ∧ limit ≤ 100) →
      listUsersEndpoint db skip limit = .ok (listUsers db skip.toNat limit.toNat)) ∧
    (¬(0 ≤ skip ∧ 1 ≤ limit ∧ limit ≤ 500) →
      listTransactionsEndpoint db skip limit none none = .error .validationError ∧
      listTransactionsEndpoint db skip limit none none =
        listTransactionsEndpoint dbAlt skip limit none none) ∧
    ((0 ≤ skip ∧ 1 ≤ limit ∧ limit ≤ 500) →
      listTransactionsEndpoint db skip limit none none =
        .ok (listTransactions db.txs skip.toNat limit.toNat none none)) ∧
    (¬(1 ≤ days ∧ days ≤ 365) →
      dailyEndpoint db now days = .error .validationError ∧
      dailyEndpoint db now days = dailyEndpoint dbAlt now days) ∧
    ((1 ≤ days ∧ days ≤ 365) →
      dailyEndpoint db now days = .ok (dailySummary db.txs now days.toNat)) ∧
    (¬(1 ≤ limit ∧ limit ≤ 100) →
      topUsersEndpoint db limit = .error .validationError ∧
      topUsersEndpoint db limit = topUsersEndpoint dbAlt limit) ∧
    (0 ≤ skipDefault ∧ 1 ≤ usersLimitDefault ∧ usersLimitDefault ≤ 100 ∧
      1 ≤ txLimitDefault ∧ txLimitDefault ≤ 500 ∧
      1 ≤ topUsersLimitDefault ∧ topUsersLimitDefault ≤ 100 ∧
      1 ≤ daysDefault ∧ daysDefault ≤ 365) := by
  refine ⟨?_, ?_, ?_, ?_, ?_, ?_, ?_, by decide⟩
  · intro h
    constructor <;> simp only [listUsersEndpoint, if_neg h]
  · intro h
    simp only [listUsersEndpoint, if_pos h]
  · intro h
    constructor <;> simp only [listTransactionsEndpoint, if_neg h]
  · intro h
    simp only [listTransactionsEndpoint, if_pos h]
  · intro h
    constructor <;> simp only [dailyEndpoint, if_neg h]
  · intro h
    simp only [dailyEndpoint, if_pos h]
  · intro h
    constructor <;> simp only [topUsersEndpoint, if_neg h]

/-- C9 witness: a negative offset, an over-large day window and a zero
top-users limit are each rejected with the validation error on two different
datasets alike, while in-range parameters reach the query. -/
theorem raw_params_validated_witness :
    (listUsersEndpoint orphanDb (-1) 10 = .error .validationError ∧
      listUsersEndpoint orphanDb (-1) 10 = listUsersEndpoint statsDb (-1) 10) ∧
    (dailyEndpoint orphanDb 0 400 = .error .validationError ∧
      dailyEndpoint orphanDb 0 400 = dailyEndpoint statsDb 0 400) ∧
    (topUsersEndpoint orphanDb 0 = .error .validationError ∧
      topUsersEndpoint orphanDb 0 = topUsersEndpoint statsDb 0) ∧
    listUsersEndpoint orphanDb 0 10 =
      .ok (listUsers orphanDb (Int.toNat 0) (Int.toNat 10)) :=
  ⟨(raw_params_validated orphanDb statsDb 0 (-1) 10 400).1 (by decide),
    (raw_params_validated orphanDb statsDb 0 (-1) 10 400).2.2.2.2.1 (by decide),
    (raw_params_validated orphanDb statsDb 0 (-1) 0 400).2.2.2.2.2.2.1 (by decide),
    (raw_params_validated orphanDb statsDb 0 0 10 7).2.1 (by decide)⟩

end Sandbox
